import Mathlib

/-!
Verification development for the upnpy UPnP control-point client.

The definitions below are a shallow embedding, in Lean, of the code in
`upnpy/ssdp/SSDPDevice.py` and `upnpy/tools/igd.py`:

* XML documents are modelled by the tree type `XmlNode`; the functions
  `getByTag`, `firstChild` and `nodeValue` model `xml.dom.minidom`
  element access (`getElementsByTagName` returns all descendant elements
  with the given tag, in document order; `firstChild` is the first child
  node or `None`; `nodeValue` is the text of a text node and `None` for
  an element).
* Python exceptions are modelled by `PyErr` and fallible Python code by
  `Except PyErr`.  An uncaught `x[0]` on an empty list is `indexError`,
  `None.attr` is `attributeError`, `raise ValueError` is `valueError`,
  a failed HTTP request is `transportError`.
-/

namespace Upnpy

inductive PyErr where
  | indexError
  | keyError (key : String)
  | attributeError (msg : String)
  | valueError (msg : String)
  | typeError (msg : String)
  | transportError (msg : String)
deriving DecidableEq, Repr

/-- XML document tree: an element with a tag and children, or a text node. -/
inductive XmlNode where
  | elem (tag : String) (children : List XmlNode)
  | text (s : String)
deriving Repr

mutual

/-- Models minidom `node.getElementsByTagName(t)`: all *descendant* elements
with tag `t`, in document (preorder) order, excluding the node itself. -/
def getByTag : XmlNode → String → List XmlNode
  | .text _, _ => []
  | .elem _ cs, t => getByTagList cs t

def getByTagList : List XmlNode → String → List XmlNode
  | [], _ => []
  | c :: cs, t =>
    (match c with
     | .elem tg _ => (if tg = t then [c] else []) ++ getByTag c t
     | .text _ => []) ++ getByTagList cs t

end

/-- Models minidom `node.firstChild` (`none` = Python `None`). -/
def firstChild : XmlNode → Option XmlNode
  | .text _ => none
  | .elem _ cs => cs.head?

/-- Models minidom `node.nodeValue`: the text of a text node, `None` for an element. -/
def nodeValue : XmlNode → Option String
  | .text s => some s
  | .elem _ _ => none

/-- Models the Python idiom `n.getElementsByTagName(t)[0].firstChild.nodeValue`:
`indexError` when no element with tag `t` exists, `attributeError` when the
first such element has no children (so `firstChild` is `None`), and otherwise
the `nodeValue` of the first child (`none` when that child is an element). -/
def tagText (n : XmlNode) (t : String) : Except PyErr (Option String) :=
  match getByTag n t with
  | [] => .error .indexError
  | e :: _ =>
    match firstChild e with
    | none => .error (.attributeError "NoneType object has no attribute nodeValue")
    | some c => .ok (nodeValue c)

/-! ### Python string primitives used by the source -/

/-- Helper for `pySplit`: split a character list at every occurrence of `sep`. -/
def pySplitAux (sep : Char) : List Char → List Char → List String
  | [], cur => [String.mk cur.reverse]
  | c :: rest, cur =>
    if c = sep then String.mk cur.reverse :: pySplitAux sep rest []
    else pySplitAux sep rest (c :: cur)

/-- Models Python `s.split(sep)` for a one-character separator (every occurrence
splits; empty pieces are kept; the empty string yields `[""]`). -/
def pySplit (s : String) (sep : Char) : List String :=
  pySplitAux sep s.toList []

/-- Models Python `xs[i]` on a list: the element, or an uncaught `IndexError`. -/
def listGet {α : Type} (xs : List α) (i : Nat) : Except PyErr α :=
  match xs.get? i with
  | none => .error .indexError
  | some x => .ok x

/-- Strip leading and trailing whitespace, as `int(...)` does before parsing. -/
def pyStrip (s : String) : List Char :=
  ((s.toList.dropWhile Char.isWhitespace).reverse.dropWhile Char.isWhitespace).reverse

/-- Digit-list to number accumulator. -/
def digitsToNat (ds : List Char) : Nat :=
  ds.foldl (fun acc c => acc * 10 + (c.toNat - 48)) 0

/-- Core of `pyInt` on a stripped character list: an optional sign followed by
a nonempty run of decimal digits; anything else is rejected. -/
def pyIntCore : List Char → Option Int
  | '-' :: ds =>
    if !ds.isEmpty && ds.all Char.isDigit then some (-(Int.ofNat (digitsToNat ds))) else none
  | '+' :: ds =>
    if !ds.isEmpty && ds.all Char.isDigit then some (Int.ofNat (digitsToNat ds)) else none
  | ds =>
    if !ds.isEmpty && ds.all Char.isDigit then some (Int.ofNat (digitsToNat ds)) else none

/-- Models Python `int(s)` on an optionally-signed decimal string (surrounding
whitespace stripped); a non-numeric string raises `ValueError`. -/
def pyInt (s : String) : Except PyErr Int :=
  match pyIntCore (pyStrip s) with
  | some v => .ok v
  | none => .error (.valueError ("invalid literal for int with base 10: " ++ s))

/-- Split a character list at the first occurrence of the literal `://`. -/
def splitSchemeSep : List Char → Option (List Char × List Char)
  | ':' :: '/' :: '/' :: rest => some ([], rest)
  | c :: rest =>
    match splitSchemeSep rest with
    | none => none
    | some (a, b) => some (c :: a, b)
  | [] => none

/-- Models `urllib.parse.urlparse(url)` followed by the f-string
`scheme://netloc` used in `SSDPDevice._get_base_url`, for hierarchical URLs:
the scheme is everything before the first `://` (lowercased, as `urlparse`
does), the netloc everything after it up to the first `/`, `?` or `#`.  A URL
with no `://` has empty scheme and netloc, giving the bare string `://`. -/
def schemeNetloc (url : String) : String :=
  match splitSchemeSep url.toList with
  | none => "://"
  | some (schemeCs, afterCs) =>
    let netloc := afterCs.takeWhile (fun c => !(c == '/') && !(c == '?') && !(c == '#'))
    String.mk (schemeCs.map Char.toLower) ++ "://" ++ String.mk netloc

/-! ### Association-list model of Python `dict`

Python 3 dicts preserve insertion order; assignment to an existing key keeps
its position and replaces the value. -/

/-- Models `d[k]` lookup returning `none` when the key is absent. -/
def dictGet {κ α : Type} [DecidableEq κ] : List (κ × α) → κ → Option α
  | [], _ => none
  | (k, v) :: rest, key => if k = key then some v else dictGet rest key

/-- Models `d[k] = v`: replace in place when present, else append. -/
def dictInsert {κ α : Type} [DecidableEq κ] : List (κ × α) → κ → α → List (κ × α)
  | [], key, v => [(key, v)]
  | (k, w) :: rest, key, v =>
    if k = key then (k, v) :: rest else (k, w) :: dictInsert rest key v

/-- Models `k in d.keys()`. -/
def dictContains {κ α : Type} [DecidableEq κ] (d : List (κ × α)) (key : κ) : Bool :=
  (dictGet d key).isSome

/-! ### Argument and Action (`SSDPDevice.Service.Action`)

String-valued attributes that Python may set to `None` (a `nodeValue` of an
element child, or a caught missing element) are `Option String`. -/

/-- `SSDPDevice.Service.Action.Argument`: the four attributes stored by
`Argument.__init__`. -/
structure Argument where
  name : Option String
  direction : Option String
  return_value : Option String
  related_state_variable : Option String
deriving DecidableEq, Repr

/-- `SSDPDevice.Service.Action`: name, the ordered argument list, and the
in/out partition computed by `Action.__init__`.  (The back-reference to the
owning service is non-owning and is not part of the value.) -/
structure Action where
  name : Option String
  arguments : List Argument
  args_in : List Argument
  args_out : List Argument
deriving DecidableEq, Repr

/-- How Python renders a str-or-None in an f-string. -/
def pyShow : Option String → String
  | none => "None"
  | some s => s

/-- The `ValueError` message raised by `Action.__init__` for a bad direction. -/
def badDirectionMsg (argName : Option String) : String :=
  "No valid argument direction specified by service for argument \"" ++ pyShow argName ++ "\"."

/-- The loop of `Action.__init__` (lines 305-313): walk the arguments in order,
appending direction-`in` arguments to `args_in` and direction-`out` arguments
to `args_out`; any other direction raises `ValueError` at the first offender. -/
def classifyArgs : List Argument → Except PyErr (List Argument × List Argument)
  | [] => .ok ([], [])
  | a :: rest =>
    if a.direction = some "in" then
      match classifyArgs rest with
      | .error e => .error e
      | .ok (i, o) => .ok (a :: i, o)
    else if a.direction = some "out" then
      match classifyArgs rest with
      | .error e => .error e
      | .ok (i, o) => .ok (i, a :: o)
    else .error (.valueError (badDirectionMsg a.name))

/-- `Action.__init__`: store the argument list and its in/out partition, or
propagate the `ValueError` (the partially-built object is discarded). -/
def mkAction (name : Option String) (argument_list : List Argument) : Except PyErr Action :=
  match classifyArgs argument_list with
  | .error e => .error e
  | .ok (i, o) => .ok ⟨name, argument_list, i, o⟩

/-- The `retval` read of `Service._get_actions` (lines 228-231): only
`IndexError` (absence of the element) is caught and mapped to `None`; an
empty `<retval/>` still reaches `.firstChild.nodeValue` and raises an
uncaught `AttributeError`. -/
def parseRetval (argument : XmlNode) : Except PyErr (Option String) :=
  match getByTag argument "retval" with
  | [] => .ok none
  | e :: _ =>
    match firstChild e with
    | none => .error (.attributeError "NoneType object has no attribute nodeValue")
    | some c => .ok (nodeValue c)

/-- One iteration of the `<argument>` loop in `Service._get_actions`
(lines 223-244): `name` and `direction` are read with the uncaught
`[0].firstChild.nodeValue` idiom, then `retval` (see `parseRetval`), then
`relatedStateVariable`, again uncaught. -/
def parseArgument (argument : XmlNode) : Except PyErr Argument :=
  match tagText argument "name" with
  | .error e => .error e
  | .ok argument_name =>
    match tagText argument "direction" with
    | .error e => .error e
    | .ok argument_direction =>
      match parseRetval argument with
      | .error e => .error e
      | .ok argument_return_value =>
        match tagText argument "relatedStateVariable" with
        | .error e => .error e
        | .ok argument_related_state_variable =>
          .ok ⟨argument_name, argument_direction, argument_return_value,
               argument_related_state_variable⟩

/-- The `<argument>` elements of an `<argumentList>`, parsed in order; the
first failure propagates. -/
def parseArguments : List XmlNode → Except PyErr (List Argument)
  | [] => .ok []
  | a :: rest =>
    match parseArgument a with
    | .error e => .error e
    | .ok arg =>
      match parseArguments rest with
      | .error e => .error e
      | .ok args => .ok (arg :: args)

/-- One iteration of the `<action>` loop of `Service._get_actions`
(lines 210-246): read the action name (uncaught idiom); a missing
`<argumentList>` is caught (`IndexError`) and yields an empty argument list;
otherwise parse its `<argument>` children; finally construct the `Action`. -/
def processAction (action : XmlNode) : Except PyErr (Option String × Action) :=
  match tagText action "name" with
  | .error e => .error e
  | .ok action_name =>
    match
      (match (getByTag action "argumentList").head? with
       | none => Except.ok ([] : List Argument)
       | some al => parseArguments (getByTag al "argument")) with
    | .error e => .error e
    | .ok action_arguments =>
      match mkAction action_name action_arguments with
      | .error e => .error e
      | .ok act => .ok (action_name, act)

/-- The `<action>` loop of `Service._get_actions`, accumulating the
`all_actions` dict; a later action with the same name overwrites. -/
def getActionsLoop : List XmlNode → List (Option String × Action) →
    Except PyErr (List (Option String × Action))
  | [], acc => .ok acc
  | a :: rest, acc =>
    match processAction a with
    | .error e => .error e
    | .ok (k, act) => getActionsLoop rest (dictInsert acc k act)

/-- `Service._get_actions` on an (already parsed) SCPD document: build the
action dict from every descendant `<action>` element.  The Python method
assigns `self.actions` only after the whole loop succeeds, so an error leaves
the service's action map untouched - here, no map is produced at all. -/
def getActions (scpd : XmlNode) : Except PyErr (List (Option String × Action)) :=
  getActionsLoop (getByTag scpd "action") []

/-! ### Service (`SSDPDevice.Service`) -/

/-- `Service._get_service_type`: `service.split(':')[3]`, an uncaught
`IndexError` when the URN has fewer than four segments. -/
def get_service_type (service : String) : Except PyErr String :=
  listGet (pySplit service ':') 3

/-- `Service._get_service_version`: `int(service.split(':')[4])`. -/
def get_service_version (service : String) : Except PyErr Int :=
  match listGet (pySplit service ':') 4 with
  | .error e => .error e
  | .ok s => pyInt s

/-- Modelled from the spec: `upnpy.utils.parse_service_id` is not under the
provided sources (only `SSDPDevice._get_services` calls it); per the spec,
the service key is the trailing colon-delimited token of the `serviceId`
(for example `urn:upnp-org:serviceId:WANIPConn1` gives `WANIPConn1`). -/
def parse_service_id (service_id : String) : String :=
  (pySplit service_id ':').getLastD ""

/-- Models Python calling a `str` method (such as `.split`) on a value that is
`None`: an uncaught `AttributeError`. -/
def asStr : Option String → Except PyErr String
  | none => .error (.attributeError "NoneType object has no attribute split")
  | some s => .ok s

/-- Models Python `base_url + x` when `x` may be `None`: a `TypeError`. -/
def asStrForConcat : Option String → Except PyErr String
  | none => .error (.typeError "can only concatenate str (not NoneType) to str")
  | some s => .ok s

/-- The transport and parser collaborator: fetching a URL yields a parsed XML
document or a `transportError` (`utils.make_http_request` plus
`minidom.parseString`). -/
structure Env where
  fetch : String → Except PyErr XmlNode

/-- `SSDPDevice.Service`: the attributes stored by `Service.__init__`.
`control_url`/`event_sub_url` are stored raw (Python keeps a possible `None`);
`service`, `type_`, `scpd_url` pass through operations that crash on `None`
first, so they are plain strings here. -/
structure Service where
  service : String
  type_ : String
  version : Int
  id : String
  scpd_url : String
  control_url : Option String
  event_sub_url : Option String
  base_url : String
  description : XmlNode
  actions : List (Option String × Action)

/-- `Service.__init__` (lines 162-175), in source order: parse the service
type and version from the URN, fetch the SCPD description from
`base_url + scpd_url` (`Service._get_description`), and build the action map
(`Service._get_actions`).  Any failure aborts the whole construction. -/
def mkService (env : Env) (service_string : Option String) (service_id : String)
    (scpd_url_raw control_url event_sub_url : Option String) (base_url : String) :
    Except PyErr Service :=
  match asStr service_string with
  | .error e => .error e
  | .ok service =>
    match get_service_type service with
    | .error e => .error e
    | .ok type_ =>
      match get_service_version service with
      | .error e => .error e
      | .ok version =>
        match asStrForConcat scpd_url_raw with
        | .error e => .error e
        | .ok scpd_url =>
          match env.fetch (base_url ++ scpd_url) with
          | .error e => .error e
          | .ok description =>
            match getActions description with
            | .error e => .error e
            | .ok actions =>
              .ok ⟨service, type_, version, service_id, scpd_url, control_url,
                   event_sub_url, base_url, description, actions⟩

/-! ### Device (`SSDPDevice`) -/

/-- `SSDPDevice._get_base_url` (lines 94-107): try the first `<URLBase>`
element's text and reduce it to `scheme://netloc`; a missing element
(`IndexError`) falls back to the discovery response's `Location` header value
reduced the same way.  An empty `<URLBase/>` raises an uncaught
`AttributeError`; an element-valued first child makes `urlparse(None)` blow
up with a `TypeError`. -/
def getBaseURL (description : XmlNode) (location_header_value : String) : Except PyErr String :=
  match getByTag description "URLBase" with
  | [] => .ok (schemeNetloc location_header_value)
  | e :: _ =>
    match firstChild e with
    | none => .error (.attributeError "NoneType object has no attribute nodeValue")
    | some c =>
      match nodeValue c with
      | some url => .ok (schemeNetloc url)
      | none => .error (.typeError "urlparse argument is None")

/-- The `<service>` loop of `SSDPDevice._get_services` (lines 118-135): for
each `<service>` element extract the five required children with the uncaught
`[0].firstChild.nodeValue` idiom, parse the service id into the dict key, and
construct the `Service` only when the key is not already present (a duplicate
key is skipped without constructing anything). -/
def buildServicesLoop (env : Env) (base_url : String) :
    List XmlNode → List (String × Service) → Except PyErr (List (String × Service))
  | [], acc => .ok acc
  | el :: rest, acc =>
    match tagText el "serviceType" with
    | .error e => .error e
    | .ok service_string =>
      match tagText el "serviceId" with
      | .error e => .error e
      | .ok service_id_raw =>
        match tagText el "SCPDURL" with
        | .error e => .error e
        | .ok scpd_url =>
          match tagText el "controlURL" with
          | .error e => .error e
          | .ok control_url =>
            match tagText el "eventSubURL" with
            | .error e => .error e
            | .ok event_sub_url =>
              match asStr service_id_raw with
              | .error e => .error e
              | .ok service_id =>
                if dictContains acc (parse_service_id service_id) then
                  buildServicesLoop env base_url rest acc
                else
                  match mkService env service_string service_id scpd_url control_url
                    event_sub_url base_url with
                  | .error e => .error e
                  | .ok svc =>
                    buildServicesLoop env base_url rest
                      (dictInsert acc (parse_service_id service_id) svc)

/-- The piece of device state that `SSDPDevice._get_services` reads and
writes: the `self.services` dict. -/
structure DeviceState where
  services : List (String × Service)

/-- `SSDPDevice._get_services` (lines 111-139) as a state transformer.  The
guard `if not self.services:` recomputes whenever the stored dict is *empty*
(Python falsiness); on success the dict is assigned, on failure the exception
propagates and the state is untouched.  The third component counts how many
times the device description was parsed (`minidom.parseString`) during the
call: `1` on the recompute path, `0` on the cached path. -/
def getServices (env : Env) (description : XmlNode) (base_url : String) (st : DeviceState) :
    Except PyErr (List (String × Service)) × DeviceState × Nat :=
  if st.services.isEmpty then
    match buildServicesLoop env base_url (getByTag description "service") [] with
    | .ok m => (.ok m, ⟨m⟩, 1)
    | .error e => (.error e, st, 1)
  else
    (.ok st.services, st, 0)

/-! ### Invocation (`Service.__getattr__` and `Action.execute`) -/

/-- `Service.__getattr__` (lines 269-281): look the name up in the action
dict; a missing name is an uncaught `KeyError` from `self.actions[...]`. -/
def getattrAction (svc : Service) (action_name : String) : Except PyErr Action :=
  match dictGet svc.actions (some action_name) with
  | none => .error (.keyError action_name)
  | some a => .ok a

/-- Invoking an action by name: resolve it through `getattrAction`, then hand
the service and action to the SOAP transport collaborator (`SOAP.send`,
line 328).  The transport is a parameter: resolution happens before it is
ever consulted. -/
def invokeAction {ρ : Type} (soap_send : Service → Action → ρ) (svc : Service)
    (action_name : String) : Except PyErr ρ :=
  match getattrAction svc action_name with
  | .error e => .error e
  | .ok a => .ok (soap_send svc a)

/-! ### The IGD tool (`upnpy/tools/igd.py`)

`Igd.GetPortMappings` queries `GetGenericPortMappingEntry` for indices
`0, 1, 2, ...` (`itertools.count()`), appending each result, and `break`s at
the first index whose query raises (a bare `except`).  The device is modelled
as an oracle `e : Nat → Option PortMappingEntry`, with `e i = none` meaning
the query at index `i` raises. -/

/-- The fields of a `GetGenericPortMappingEntry` response dict that
`Igd.HasPortMapping` reads. -/
structure PortMappingEntry where
  NewExternalPort : String
  NewProtocol : String
deriving DecidableEq, Repr

/-- The collection loop of `Igd.GetPortMappings`, starting at index `i` with
enough fuel to reach the first failing index: append `e i` and continue, or
stop at the first `none`. -/
def collectMappings (e : Nat → Option PortMappingEntry) : Nat → Nat → List PortMappingEntry
  | _, 0 => []
  | i, fuel + 1 =>
    match e i with
    | none => []
    | some m => m :: collectMappings e (i + 1) fuel

/-- `Igd.GetPortMappings` (lines 73-82).  The Python loop is unbounded; it
terminates exactly when some index fails, and any failing index `N` bounds
the loop, so running the collection loop with fuel `N` computes its result
(the entries at `0, ..., k-1` for `k ≤ N` the first failing index). -/
def GetPortMappings (e : Nat → Option PortMappingEntry) (N : Nat) : List PortMappingEntry :=
  collectMappings e 0 N

/-- `Igd.HasPortMapping` (lines 84-91): scan the collected mappings for one
whose `NewExternalPort` equals `str(port)` and whose `NewProtocol` equals
`protocol`. -/
def HasPortMapping (e : Nat → Option PortMappingEntry) (N : Nat) (port : Int)
    (protocol : String) : Bool :=
  (GetPortMappings e N).any
    (fun m => m.NewExternalPort == toString port && m.NewProtocol == protocol)

/-! ### Concrete fixtures (XML documents, environments, sample values) -/

/-- A device description with a `<URLBase>` element. -/
def descWithURLBase : XmlNode :=
  .elem "root" [
    .elem "URLBase" [.text "http://10.0.0.1:49152/"],
    .elem "device" [.elem "deviceType"
      [.text "urn:schemas-upnp-org:device:InternetGatewayDevice:1"]]]

/-- A device description lacking `<URLBase>` and declaring no services. -/
def descNoServices : XmlNode :=
  .elem "root" [
    .elem "device" [.elem "deviceType"
      [.text "urn:schemas-upnp-org:device:InternetGatewayDevice:1"]]]

/-- A well-formed `<service>` element. -/
def serviceElem (st sid scpd cu eu : String) : XmlNode :=
  .elem "service" [
    .elem "serviceType" [.text st],
    .elem "serviceId" [.text sid],
    .elem "SCPDURL" [.text scpd],
    .elem "controlURL" [.text cu],
    .elem "eventSubURL" [.text eu]]

/-- A device description declaring two services. -/
def descTwoServices : XmlNode :=
  .elem "root" [.elem "device" [.elem "serviceList" [
    serviceElem "urn:schemas-upnp-org:service:Layer3Forwarding:1"
      "urn:upnp-org:serviceId:L3Forwarding1" "/l3frwd.xml" "/ctl/L3F" "/evt/L3F",
    serviceElem "urn:schemas-upnp-org:service:WANIPConnection:1"
      "urn:upnp-org:serviceId:WANIPConn1" "/WANIPCn.xml" "/ctl/IPConn" "/evt/IPConn"]]]

/-- An SCPD document declaring no actions. -/
def scpdEmpty : XmlNode := .elem "scpd" [.elem "actionList" []]

/-- An SCPD document whose single action carries an argument with the
UPnP-standard *empty* `<retval/>` element. -/
def scpdEmptyRetval : XmlNode :=
  .elem "scpd" [.elem "actionList" [.elem "action" [
    .elem "name" [.text "GetExternalIPAddress"],
    .elem "argumentList" [.elem "argument" [
      .elem "name" [.text "NewExternalIPAddress"],
      .elem "direction" [.text "out"],
      .elem "retval" [],
      .elem "relatedStateVariable" [.text "ExternalIPAddress"]]]]]]

/-- An environment in which fetching the first service's SCPD URL fails with a
transport error and every other fetch succeeds with an empty SCPD. -/
def envFailFirst : Env :=
  ⟨fun url =>
    if url = "http://10.0.0.1:49152/l3frwd.xml"
    then .error (.transportError "HTTP request failed")
    else .ok scpdEmpty⟩

/-- An environment in which every fetch fails. -/
def envNoFetch : Env := ⟨fun _ => .error (.transportError "unreachable")⟩

/-- A sample constructed service with an empty action map. -/
def sampleService : Service :=
  ⟨"urn:schemas-upnp-org:service:WANIPConnection:1", "WANIPConnection", 1,
   "urn:upnp-org:serviceId:WANIPConn1", "/WANIPCn.xml", some "/ctl/IPConn",
   some "/evt/IPConn", "http://10.0.0.1:49152", scpdEmpty, []⟩

/-- A sample argument whose direction is neither `in` nor `out`. -/
def badDirArgument : Argument :=
  ⟨some "NewEnabled", some "inout", none, some "PortMappingEnabled"⟩

/-- An oracle with exactly one port-mapping entry; index `1` raises. -/
def igdOracle : Nat → Option PortMappingEntry
  | 0 => some ⟨"80", "TCP"⟩
  | _ + 1 => none

/-- An SCPD document with one action taking one `in` argument. -/
def scpdOneAction : XmlNode :=
  .elem "scpd" [.elem "actionList" [.elem "action" [
    .elem "name" [.text "SetConnectionType"],
    .elem "argumentList" [.elem "argument" [
      .elem "name" [.text "NewConnectionType"],
      .elem "direction" [.text "in"],
      .elem "relatedStateVariable" [.text "ConnectionType"]]]]]]

/-- The parsed argument of `scpdOneAction`. -/
def sampleInArgument : Argument :=
  ⟨some "NewConnectionType", some "in", none, some "ConnectionType"⟩

/-- The parsed action of `scpdOneAction`. -/
def sampleAction : Action :=
  ⟨some "SetConnectionType", [sampleInArgument], [sampleInArgument], []⟩

/-! ### Sanity checks of the embedding on concrete inputs -/

example :
    getByTag (.elem "r" [.elem "a" [.text "x", .elem "a" [.text "y"]], .text "z"]) "a"
      = [.elem "a" [.text "x", .elem "a" [.text "y"]], .elem "a" [.text "y"]] := rfl

example :
    tagText (.elem "r" [.elem "a" [.text "x"]]) "a" = .ok (some "x") := rfl

example :
    tagText (.elem "r" [.elem "a" []]) "a"
      = .error (.attributeError "NoneType object has no attribute nodeValue") := rfl

example : tagText (.elem "r" []) "a" = .error .indexError := rfl

example : pySplit "urn:schemas-upnp-org:service:WANIPConnection:1" ':'
    = ["urn", "schemas-upnp-org", "service", "WANIPConnection", "1"] := rfl

example : pySplit "a::b" ':' = ["a", "", "b"] := rfl

example : pyInt "1" = .ok 1 := rfl

example : pyInt " -42 " = .ok (-42) := rfl

example : pyInt "x1" = .error (.valueError "invalid literal for int with base 10: x1") := rfl

example : schemeNetloc "http://192.168.1.1:49152/rootDesc.xml" = "http://192.168.1.1:49152" := rfl

example : schemeNetloc "HTTP://Host:80/a?b#c" = "http://Host:80" := rfl

example : parse_service_id "urn:upnp-org:serviceId:WANIPConn1" = "WANIPConn1" := rfl

/-! ### Helper lemmas on the dict model -/

theorem dictGet_insert_ne {κ α : Type} [DecidableEq κ] (d : List (κ × α)) (key k : κ)
    (v : α) (h : k ≠ key) : dictGet (dictInsert d key v) k = dictGet d k := by
  induction d with
  | nil =>
    have hne : key ≠ k := fun he => h he.symm
    simp [dictInsert, dictGet, hne]
  | cons q rest ih =>
    obtain ⟨k1, w⟩ := q
    by_cases hk : k1 = key
    · subst hk
      have hne : k1 ≠ k := fun he => h he.symm
      simp [dictInsert, dictGet, hne]
    · simp only [dictInsert, hk, if_false, dictGet]
      by_cases hk2 : k1 = k
      · simp [hk2]
      · simp [hk2, ih]

theorem mem_dictInsert {κ α : Type} [DecidableEq κ] (d : List (κ × α)) (key : κ) (v : α)
    (p : κ × α) (h : p ∈ dictInsert d key v) : p ∈ d ∨ p = (key, v) := by
  induction d with
  | nil =>
    simp [dictInsert] at h
    exact Or.inr h
  | cons q rest ih =>
    obtain ⟨k1, w⟩ := q
    by_cases hk : k1 = key
    · subst hk
      rw [show dictInsert ((k1, w) :: rest) k1 v = (k1, v) :: rest from by
        simp [dictInsert]] at h
      rcases List.mem_cons.mp h with h | h
      · exact Or.inr h
      · exact Or.inl (List.mem_cons_of_mem _ h)
    · rw [show dictInsert ((k1, w) :: rest) key v = (k1, w) :: dictInsert rest key v from by
        simp [dictInsert, hk]] at h
      rcases List.mem_cons.mp h with h | h
      · exact Or.inl (by simp [h])
      · rcases ih h with h2 | h2
        · exact Or.inl (List.mem_cons_of_mem _ h2)
        · exact Or.inr h2

theorem dictContains_of_get {κ α : Type} [DecidableEq κ] (d : List (κ × α)) (k : κ) (v : α)
    (h : dictGet d k = some v) : dictContains d k = true := by
  simp [dictContains, h]

/-! ### Claim C1 -/

/-- Claim C1: for a well-formed device description whose first `<URLBase>`
element has a text first child holding a URL, `base_url` is that URL reduced
to `scheme://netloc`; for a description with no `<URLBase>` element at all,
`base_url` is the discovery `LOCATION` header value reduced the same way. -/
theorem baseURL_prefers_urlbase (description : XmlNode) (location : String) :
    (∀ e rest url, getByTag description "URLBase" = e :: rest →
        firstChild e = some (XmlNode.text url) →
        getBaseURL description location = .ok (schemeNetloc url))
    ∧ (getByTag description "URLBase" = [] →
        getBaseURL description location = .ok (schemeNetloc location)) := by
  constructor
  · intro e rest url h1 h2
    simp [getBaseURL, h1, h2, nodeValue]
  · intro h
    simp [getBaseURL, h]

/-- Witness for C1 on concrete documents: with a `<URLBase>` holding
`http://10.0.0.1:49152/` the base URL is `http://10.0.0.1:49152` whatever the
location header says; without one it is the header reduced to
`scheme://netloc`. -/
theorem baseURL_prefers_urlbase_witness :
    getBaseURL descWithURLBase "http://10.0.0.9:1900/rootDesc.xml" = .ok "http://10.0.0.1:49152"
    ∧ getBaseURL descNoServices "http://10.0.0.9:1900/rootDesc.xml" = .ok "http://10.0.0.9:1900" :=
  ⟨(baseURL_prefers_urlbase descWithURLBase "http://10.0.0.9:1900/rootDesc.xml").1
      (.elem "URLBase" [.text "http://10.0.0.1:49152/"]) [] "http://10.0.0.1:49152/" rfl rfl,
   (baseURL_prefers_urlbase descNoServices "http://10.0.0.9:1900/rootDesc.xml").2 rfl⟩

/-! ### Claim C6 -/

/-- Claim C6: an `<action>` element with no `<argumentList>` descendant (and a
readable `<name>`) is constructed successfully with an empty argument list,
so `args_in = []` and `args_out = []`. -/
theorem action_without_argument_list (action : XmlNode) (nm : Option String)
    (hname : tagText action "name" = .ok nm)
    (hnoArgs : getByTag action "argumentList" = []) :
    processAction action = .ok (nm, ⟨nm, [], [], []⟩) := by
  simp [processAction, hname, hnoArgs, mkAction, classifyArgs]

/-- Witness for C6: a concrete argument-less action constructs with empty
`args_in`/`args_out`. -/
theorem action_without_argument_list_witness :
    processAction (.elem "action" [.elem "name" [.text "GetStatusInfo"]])
      = .ok (some "GetStatusInfo", ⟨some "GetStatusInfo", [], [], []⟩) :=
  action_without_argument_list (.elem "action" [.elem "name" [.text "GetStatusInfo"]])
    (some "GetStatusInfo") rfl rfl

/-! ### Claim C7 -/

/-- Claim C7: when the serviceType URN has at least five colon-delimited
segments and the fifth parses as an integer, the service type is the fourth
segment and the version that integer. -/
theorem service_type_and_version (service typeName verStr : String) (v : Int)
    (h3 : (pySplit service ':')[3]? = some typeName)
    (h4 : (pySplit service ':')[4]? = some verStr)
    (hv : pyInt verStr = .ok v) :
    get_service_type service = .ok typeName ∧ get_service_version service = .ok v := by
  constructor
  · simp [get_service_type, listGet, h3]
  · simp [get_service_version, listGet, h4, hv]

/-- Witness for C7 at the URN named by the claim. -/
theorem service_type_and_version_witness :
    get_service_type "urn:schemas-upnp-org:service:WANIPConnection:1" = .ok "WANIPConnection"
    ∧ get_service_version "urn:schemas-upnp-org:service:WANIPConnection:1" = .ok 1 :=
  service_type_and_version "urn:schemas-upnp-org:service:WANIPConnection:1"
    "WANIPConnection" "1" 1 rfl rfl rfl

/-! ### Claim C9 -/

/-- Claim C9: invoking an action name that is not a key of the service's
action map fails with the lookup error (`KeyError` from
`self.actions[action_name]`) during `__getattr__` resolution, uniformly in
the SOAP transport - which is therefore never consulted. -/
theorem unknown_action_fails_at_resolution {ρ : Type} (soap_send : Service → Action → ρ)
    (svc : Service) (action_name : String)
    (h : dictGet svc.actions (some action_name) = none) :
    invokeAction soap_send svc action_name = .error (.keyError action_name) := by
  simp [invokeAction, getattrAction, h]

/-- Witness for C9: `sampleService` declares no actions, so invoking
`AddPortMapping` on it fails with the lookup error for any transport. -/
theorem unknown_action_fails_at_resolution_witness :
    invokeAction (fun _ _ => (0 : Nat)) sampleService "AddPortMapping"
      = .error (.keyError "AddPortMapping") :=
  unknown_action_fails_at_resolution (fun _ _ => (0 : Nat)) sampleService "AddPortMapping" rfl

/-! ### Claim C3 (code bug) -/

/-- Claim C3 evaluated at the failing input: on an SCPD whose argument
carries the UPnP-standard *empty* `<retval/>` element, `_get_actions` raises
an uncaught `AttributeError` (the `try` around
`retval[0].firstChild.nodeValue` only catches `IndexError`), instead of
marking the argument as the return-value argument.  The second conjunct
shows the true half of the claim: *absence* of `<retval>` is not an error,
the argument parses with `return_value = None`. -/
theorem empty_retval_crashes :
    getActions scpdEmptyRetval
      = .error (.attributeError "NoneType object has no attribute nodeValue")
    ∧ parseArgument (.elem "argument" [
        .elem "name" [.text "NewPortMappingIndex"],
        .elem "direction" [.text "in"],
        .elem "relatedStateVariable" [.text "PortMappingIndex"]])
      = .ok ⟨some "NewPortMappingIndex", some "in", none, some "PortMappingIndex"⟩ :=
  ⟨rfl, rfl⟩

/-! ### Claim C4 (corrected) -/

/-- Counterexample to C4 as stated: under `envFailFirst` the first declared
service's SCPD fetch fails with a transport error while the second service is
perfectly constructible (second conjunct), yet `_get_services` propagates the
error before assigning `self.services`: the services map stays empty, so the
sibling does *not* appear. -/
theorem scpd_failure_aborts_siblings_cex :
    getServices envFailFirst descTwoServices "http://10.0.0.1:49152" ⟨[]⟩
      = (.error (.transportError "HTTP request failed"), ⟨[]⟩, 1)
    ∧ (mkService envFailFirst (some "urn:schemas-upnp-org:service:WANIPConnection:1")
        "urn:upnp-org:serviceId:WANIPConn1" (some "/WANIPCn.xml") (some "/ctl/IPConn")
        (some "/evt/IPConn") "http://10.0.0.1:49152").toOption.isSome = true :=
  ⟨rfl, rfl⟩

/-- Claim C4 amended: when building any declared service fails (for example a
transport error on its SCPD fetch), `_get_services` propagates that error to
the caller and registers *nothing*: sibling services do not appear and the
device's services state is left unchanged. -/
theorem scpd_failure_aborts_siblings (env : Env) (description : XmlNode)
    (base_url : String) (st : DeviceState) (e : PyErr)
    (hempty : st.services = [])
    (herr : buildServicesLoop env base_url (getByTag description "service") [] = .error e) :
    getServices env description base_url st = (.error e, st, 1) := by
  simp [getServices, hempty, herr]

/-- Witness for the amended C4 at the concrete failing environment. -/
theorem scpd_failure_aborts_siblings_witness :
    getServices envFailFirst descTwoServices "http://10.0.0.1:49152" ⟨[]⟩
      = (.error (.transportError "HTTP request failed"),
         DeviceState.mk [], 1) :=
  scpd_failure_aborts_siblings envFailFirst descTwoServices "http://10.0.0.1:49152" ⟨[]⟩
    (.transportError "HTTP request failed") rfl rfl

/-! ### Claim C5 (corrected) -/

/-- Counterexample to C5 as stated: for a device declaring no services the
computed services map is empty, and the guard `if not self.services:` treats
an empty dict as never computed.  The first call computes and stores the
empty map (first conjunct); the immediately following call parses the device
description again - parse count `1`, not `0`. -/
theorem services_memo_cex :
    (getServices envNoFetch descNoServices "http://10.0.0.1:49152" ⟨[]⟩).1 = .ok []
    ∧ (getServices envNoFetch descNoServices "http://10.0.0.1:49152"
        (getServices envNoFetch descNoServices "http://10.0.0.1:49152" ⟨[]⟩).2.1).2.2 = 1 :=
  ⟨rfl, rfl⟩

/-- Claim C5 amended: memoization holds exactly when the computed services
map is nonempty - every subsequent call then returns the cached map, leaves
the state untouched and performs no description parse (count `0`), uniformly
in the environment, so no `Service` is reconstructed. -/
theorem services_memoized_when_nonempty (env : Env) (description : XmlNode)
    (base_url : String) (st : DeviceState) (h : st.services ≠ []) :
    getServices env description base_url st = (.ok st.services, st, 0) := by
  have hb : st.services.isEmpty = false := by
    cases hs : st.services with
    | nil => exact absurd hs h
    | cons a t => simp
  simp [getServices, hb]

/-- Witness for the amended C5 on a cached nonempty services map. -/
theorem services_memoized_when_nonempty_witness :
    getServices envNoFetch descTwoServices "http://10.0.0.1:49152"
      ⟨[("WANIPConn1", sampleService)]⟩
      = (.ok [("WANIPConn1", sampleService)], ⟨[("WANIPConn1", sampleService)]⟩, 0) :=
  services_memoized_when_nonempty envNoFetch descTwoServices "http://10.0.0.1:49152"
    ⟨[("WANIPConn1", sampleService)]⟩ (by simp)

/-! ### Claim C10 -/

theorem collectMappings_getElem? (e : Nat → Option PortMappingEntry) :
    ∀ (fuel i j : Nat), j < (collectMappings e i fuel).length →
      (collectMappings e i fuel)[j]? = e (i + j) := by
  intro fuel
  induction fuel with
  | zero =>
    intro i j hj
    simp [collectMappings] at hj
  | succ n ih =>
    intro i j hj
    cases he : e i with
    | none => simp [collectMappings, he] at hj
    | some m =>
      simp only [collectMappings, he] at hj ⊢
      cases j with
      | zero => simpa using he.symm
      | succ j2 =>
        have hlt : j2 < (collectMappings e (i + 1) n).length := by
          simpa using hj
        rw [List.getElem?_cons_succ, ih (i + 1) j2 hlt,
          show i + 1 + j2 = i + (j2 + 1) from by omega]

theorem collectMappings_stop (e : Nat → Option PortMappingEntry) :
    ∀ (fuel i : Nat), e (i + fuel) = none →
      e (i + (collectMappings e i fuel).length) = none := by
  intro fuel
  induction fuel with
  | zero =>
    intro i h
    simpa [collectMappings] using h
  | succ n ih =>
    intro i h
    cases he : e i with
    | none => simp [collectMappings, he]
    | some m =>
      simp only [collectMappings, he, List.length_cons]
      have h2 : e (i + 1 + n) = none := by
        rw [show i + 1 + n = i + (n + 1) from by omega]
        exact h
      have h3 := ih (i + 1) h2
      rw [show i + ((collectMappings e (i + 1) n).length + 1)
          = i + 1 + (collectMappings e (i + 1) n).length from by omega]
      exact h3

/-- Claim C10: with `N` a failing query index (so the Python loop terminates),
`HasPortMapping` returns `true` iff some mapping collected by
`GetPortMappings` has `NewExternalPort` equal to the decimal string of `port`
and `NewProtocol` equal to `protocol`.  The other two conjuncts pin down the
collection: the list holds exactly the query results at consecutive indices
starting from `0`, and the index one past the last collected entry is a
failing one (the loop stops at, and excludes, the first raising index). -/
theorem has_port_mapping_iff (e : Nat → Option PortMappingEntry) (N : Nat) (port : Int)
    (protocol : String) (h : e N = none) :
    (HasPortMapping e N port protocol = true ↔
      ∃ m ∈ GetPortMappings e N,
        m.NewExternalPort = toString port ∧ m.NewProtocol = protocol)
    ∧ (∀ j, j < (GetPortMappings e N).length → (GetPortMappings e N)[j]? = e j)
    ∧ e (GetPortMappings e N).length = none := by
  refine ⟨?_, ?_, ?_⟩
  · simp [HasPortMapping, List.any_eq_true]
  · intro j hj
    have hg := collectMappings_getElem? e N 0 j hj
    simpa using hg
  · have hs := collectMappings_stop e N 0 (by simpa using h)
    simpa using hs

/-- Witness for C10: on a one-entry oracle (index `1` raises), the mapping
for external port `80` over TCP is reported present. -/
theorem has_port_mapping_iff_witness :
    HasPortMapping igdOracle 1 80 "TCP" = true :=
  (has_port_mapping_iff igdOracle 1 80 "TCP" rfl).1.mpr
    ⟨⟨"80", "TCP"⟩, by decide, rfl, rfl⟩

/-! ### Claim C2 -/

theorem classifyArgs_error_of_bad (args : List Argument)
    (h : ∃ a ∈ args, a.direction ≠ some "in" ∧ a.direction ≠ some "out") :
    ∃ msg, classifyArgs args = .error (.valueError msg) := by
  induction args with
  | nil => simp at h
  | cons a rest ih =>
    by_cases hin : a.direction = some "in"
    · obtain ⟨b, hb, h1, h2⟩ := h
      have hbrest : b ∈ rest := by
        rcases List.mem_cons.mp hb with he | he
        · subst he
          exact absurd hin h1
        · exact he
      obtain ⟨msg, hmsg⟩ := ih ⟨b, hbrest, h1, h2⟩
      exact ⟨msg, by simp [classifyArgs, hin, hmsg]⟩
    · by_cases hout : a.direction = some "out"
      · obtain ⟨b, hb, h1, h2⟩ := h
        have hbrest : b ∈ rest := by
          rcases List.mem_cons.mp hb with he | he
          · subst he
            exact absurd hout h2
          · exact he
        obtain ⟨msg, hmsg⟩ := ih ⟨b, hbrest, h1, h2⟩
        exact ⟨msg, by simp [classifyArgs, hin, hout, hmsg]⟩
      · exact ⟨badDirectionMsg a.name, by simp [classifyArgs, hin, hout]⟩

theorem classifyArgs_ok_partition (args : List Argument) :
    ∀ i o, classifyArgs args = .ok (i, o) →
      ∀ a ∈ args, (a.direction = some "in" ∨ a.direction = some "out")
        ∧ (a ∈ i ∨ a ∈ o) := by
  induction args with
  | nil =>
    intro i o hok a ha
    simp at ha
  | cons b rest ih =>
    intro i o hok a ha
    by_cases hin : b.direction = some "in"
    · simp only [classifyArgs, hin, if_pos] at hok
      cases hres : classifyArgs rest with
      | error e =>
        rw [hres] at hok
        simp at hok
      | ok p =>
        obtain ⟨ri, ro⟩ := p
        rw [hres] at hok
        simp at hok
        obtain ⟨hi, ho⟩ := hok
        subst hi
        subst ho
        rcases List.mem_cons.mp ha with he | he
        · subst he
          exact ⟨Or.inl hin, Or.inl (List.mem_cons_self _ _)⟩
        · obtain ⟨hd, hm⟩ := ih ri ro hres a he
          exact ⟨hd, hm.imp (List.mem_cons_of_mem _) id⟩
    · by_cases hout : b.direction = some "out"
      · simp only [classifyArgs, hin, if_false, hout, if_pos] at hok
        cases hres : classifyArgs rest with
        | error e =>
          rw [hres] at hok
          simp at hok
        | ok p =>
          obtain ⟨ri, ro⟩ := p
          rw [hres] at hok
          simp at hok
          obtain ⟨hi, ho⟩ := hok
          subst hi
          subst ho
          rcases List.mem_cons.mp ha with he | he
          · subst he
            exact ⟨Or.inr hout, Or.inr (List.mem_cons_self _ _)⟩
          · obtain ⟨hd, hm⟩ := ih ri ro hres a he
            exact ⟨hd, hm.imp id (List.mem_cons_of_mem _)⟩
      · simp [classifyArgs, hin, hout] at hok

theorem mkAction_ok_classified (nm : Option String) (args : List Argument) (act : Action)
    (h : mkAction nm args = .ok act) :
    ∀ a ∈ act.arguments, (a.direction = some "in" ∨ a.direction = some "out")
      ∧ (a ∈ act.args_in ∨ a ∈ act.args_out) := by
  unfold mkAction at h
  cases hres : classifyArgs args with
  | error e =>
    rw [hres] at h
    simp at h
  | ok p =>
    obtain ⟨i, o⟩ := p
    rw [hres] at h
    simp at h
    subst h
    intro a ha
    exact classifyArgs_ok_partition args i o hres a ha

theorem processAction_ok_classified (el : XmlNode) (k : Option String) (act : Action)
    (h : processAction el = .ok (k, act)) :
    ∀ a ∈ act.arguments, (a.direction = some "in" ∨ a.direction = some "out")
      ∧ (a ∈ act.args_in ∨ a ∈ act.args_out) := by
  unfold processAction at h
  cases h1 : tagText el "name" with
  | error e =>
    rw [h1] at h
    simp at h
  | ok nm =>
    rw [h1] at h
    simp only at h
    cases h2 : (match (getByTag el "argumentList").head? with
      | none => Except.ok ([] : List Argument)
      | some al => parseArguments (getByTag al "argument")) with
    | error e =>
      rw [h2] at h
      simp at h
    | ok args =>
      rw [h2] at h
      simp only at h
      cases h3 : mkAction nm args with
      | error e =>
        rw [h3] at h
        simp at h
      | ok act2 =>
        rw [h3] at h
        simp at h
        obtain ⟨hk, hact⟩ := h
        subst hact
        exact mkAction_ok_classified nm args act2 h3

theorem getActionsLoop_classified :
    ∀ (elems : List XmlNode) (acc acts : List (Option String × Action)),
      (∀ k act, (k, act) ∈ acc → ∀ a ∈ act.arguments,
        (a.direction = some "in" ∨ a.direction = some "out")
        ∧ (a ∈ act.args_in ∨ a ∈ act.args_out)) →
      getActionsLoop elems acc = .ok acts →
      ∀ k act, (k, act) ∈ acts → ∀ a ∈ act.arguments,
        (a.direction = some "in" ∨ a.direction = some "out")
        ∧ (a ∈ act.args_in ∨ a ∈ act.args_out) := by
  intro elems
  induction elems with
  | nil =>
    intro acc acts hacc hrun
    simp [getActionsLoop] at hrun
    subst hrun
    exact hacc
  | cons el rest ih =>
    intro acc acts hacc hrun
    cases hp : processAction el with
    | error e =>
      simp [getActionsLoop, hp] at hrun
    | ok p =>
      obtain ⟨k2, act2⟩ := p
      simp only [getActionsLoop, hp] at hrun
      apply ih (dictInsert acc k2 act2) acts ?_ hrun
      intro k act hmem
      rcases mem_dictInsert acc k2 act2 (k, act) hmem with hin2 | hin2
      · exact hacc k act hin2
      · have hact : act = act2 := congrArg Prod.snd hin2
        subst hact
        have hkk : k = k2 := congrArg Prod.fst hin2
        subst hkk
        exact processAction_ok_classified el k act hp

/-- Claim C2: an argument list containing a direction outside `in`/`out`
makes `Action` construction fail with the `ValueError`
(`InvalidArgumentDirection`); and a successfully built action map never holds
a partially-classified action: every argument of every registered action has
a valid direction and lands in the in/out partition - never silently
dropped. -/
theorem invalid_direction_rejected :
    (∀ (nm : Option String) (args : List Argument),
      (∃ a ∈ args, a.direction ≠ some "in" ∧ a.direction ≠ some "out") →
      ∃ msg, mkAction nm args = .error (.valueError msg))
    ∧ (∀ (scpd : XmlNode) (acts : List (Option String × Action)),
      getActions scpd = .ok acts →
      ∀ k act, (k, act) ∈ acts → ∀ a ∈ act.arguments,
        (a.direction = some "in" ∨ a.direction = some "out")
        ∧ (a ∈ act.args_in ∨ a ∈ act.args_out)) := by
  constructor
  · intro nm args h
    obtain ⟨msg, hmsg⟩ := classifyArgs_error_of_bad args h
    exact ⟨msg, by simp [mkAction, hmsg]⟩
  · intro scpd acts hok
    exact getActionsLoop_classified (getByTag scpd "action") [] acts (by simp)
      (by simpa [getActions] using hok)

/-- Witness for C2: a concrete `inout` argument is rejected with the
`ValueError`, and on a concrete well-formed SCPD the registered action's
argument is classified into the partition. -/
theorem invalid_direction_rejected_witness :
    (∃ msg, mkAction (some "SetEnable") [badDirArgument] = .error (.valueError msg))
    ∧ ((sampleInArgument.direction = some "in" ∨ sampleInArgument.direction = some "out")
        ∧ (sampleInArgument ∈ sampleAction.args_in ∨ sampleInArgument ∈ sampleAction.args_out)) :=
  ⟨invalid_direction_rejected.1 (some "SetEnable") [badDirArgument]
      ⟨badDirArgument, by decide, by decide, by decide⟩,
   invalid_direction_rejected.2 scpdOneAction [(some "SetConnectionType", sampleAction)] rfl
      (some "SetConnectionType") sampleAction (by decide) sampleInArgument (by decide)⟩

/-! ### Claim C8 -/

theorem buildServicesLoop_preserves (env : Env) (base_url : String) :
    ∀ (elems : List XmlNode) (acc m : List (String × Service)) (k : String) (v : Service),
      dictGet acc k = some v → buildServicesLoop env base_url elems acc = .ok m →
      dictGet m k = some v := by
  intro elems
  induction elems with
  | nil =>
    intro acc m k v hget hrun
    simp [buildServicesLoop] at hrun
    subst hrun
    exact hget
  | cons el rest ih =>
    intro acc m k v hget hrun
    simp only [buildServicesLoop] at hrun
    repeat' split at hrun
    all_goals first
      | exact Except.noConfusion hrun
      | exact ih acc m k v hget hrun
      | · apply ih _ m k v ?_ hrun
          rw [dictGet_insert_ne]
          · exact hget
          · intro he
            exact absurd (dictContains_of_get acc _ v (he ▸ hget)) (by assumption)

theorem buildServicesLoop_skips_duplicate (env : Env) (base_url : String)
    (el : XmlNode) (rest : List XmlNode) (acc : List (String × Service))
    (st scpd cu eu : Option String) (sid : String)
    (h1 : tagText el "serviceType" = .ok st)
    (h2 : tagText el "serviceId" = .ok (some sid))
    (h3 : tagText el "SCPDURL" = .ok scpd)
    (h4 : tagText el "controlURL" = .ok cu)
    (h5 : tagText el "eventSubURL" = .ok eu)
    (hdup : dictContains acc (parse_service_id sid) = true) :
    buildServicesLoop env base_url (el :: rest) acc
      = buildServicesLoop env base_url rest acc := by
  simp [buildServicesLoop, h1, h2, h3, h4, h5, asStr, hdup]

/-- Claim C8: only the first `<service>` element with a given parsed service
key is retained.  (a) A key already bound in the accumulated services dict
keeps its value through the rest of the loop - a later `<service>` with the
same parsed id never replaces it.  (b) A well-formed later duplicate is
skipped silently: the loop simply continues on the rest, with no error and no
`Service` constructed (the equality holds uniformly in the environment, whose
fetch is never consulted for the duplicate). -/
theorem duplicate_service_id_first_wins (env : Env) (base_url : String) :
    (∀ (elems : List XmlNode) (acc m : List (String × Service)) (k : String) (v : Service),
      dictGet acc k = some v → buildServicesLoop env base_url elems acc = .ok m →
      dictGet m k = some v)
    ∧ (∀ (el : XmlNode) (rest : List XmlNode) (acc : List (String × Service))
        (st scpd cu eu : Option String) (sid : String),
      tagText el "serviceType" = .ok st → tagText el "serviceId" = .ok (some sid) →
      tagText el "SCPDURL" = .ok scpd → tagText el "controlURL" = .ok cu →
      tagText el "eventSubURL" = .ok eu →
      dictContains acc (parse_service_id sid) = true →
      buildServicesLoop env base_url (el :: rest) acc
        = buildServicesLoop env base_url rest acc) :=
  ⟨buildServicesLoop_preserves env base_url,
   fun el rest acc st scpd cu eu sid h1 h2 h3 h4 h5 hdup =>
     buildServicesLoop_skips_duplicate env base_url el rest acc st scpd cu eu sid
       h1 h2 h3 h4 h5 hdup⟩

/-- Witness for C8: with the key `WANIPConn1` already bound, a later
`<service>` declaring the same service id (under an environment whose every
fetch fails, showing nothing is fetched or constructed for it) is skipped,
and the first-bound value is still the one retrieved at the end of the
loop. -/
theorem duplicate_service_id_first_wins_witness :
    buildServicesLoop envNoFetch "http://10.0.0.1:49152"
        [serviceElem "urn:schemas-upnp-org:service:WANIPConnection:2"
          "urn:upnp-org:serviceId:WANIPConn1" "/dup.xml" "/ctl/dup" "/evt/dup"]
        [("WANIPConn1", sampleService)]
      = buildServicesLoop envNoFetch "http://10.0.0.1:49152" []
          [("WANIPConn1", sampleService)]
    ∧ dictGet [("WANIPConn1", sampleService)] "WANIPConn1" = some sampleService :=
  ⟨(duplicate_service_id_first_wins envNoFetch "http://10.0.0.1:49152").2
      (serviceElem "urn:schemas-upnp-org:service:WANIPConnection:2"
        "urn:upnp-org:serviceId:WANIPConn1" "/dup.xml" "/ctl/dup" "/evt/dup")
      [] [("WANIPConn1", sampleService)]
      (some "urn:schemas-upnp-org:service:WANIPConnection:2") (some "/dup.xml")
      (some "/ctl/dup") (some "/evt/dup") "urn:upnp-org:serviceId:WANIPConn1"
      rfl rfl rfl rfl rfl rfl,
   (duplicate_service_id_first_wins envNoFetch "http://10.0.0.1:49152").1
      [] [("WANIPConn1", sampleService)] [("WANIPConn1", sampleService)]
      "WANIPConn1" sampleService rfl rfl⟩

end Upnpy
